import Mathlib

/-!
Shallow embedding of the homework-agent scraper core
(src/node-scraper/src/scraper/{dynamodb,homework,weeklyPlan,auth}.js,
src/node-scraper/src/index.js, and the weekly-plan DynamoDB handler embedded
in src/node-scraper/manual-deploy.sh), together with theorems settling the
spec claims about it.

Modelling conventions:
* JavaScript nullable string fields become `Option String` (`none` = the JS
  value is `null`/`undefined`).
* `new Date().toISOString()` (the wall clock) is passed in as an explicit
  `now : String` parameter; `new Date().getFullYear()` as `nowYear`.
* DynamoDB is modelled as an association list from the `(date, sortKey)`
  composite key to an attribute list; `put` replaces the whole item.
* Fallible operations return `Except String _`; per-item failures that the
  source catches and skips are modelled by a `bad` batch-entry constructor.
-/

namespace HomeworkAgent

/-- JS string-or-default: `v || d` for a possibly-null string `v`
(both `null`/`undefined` and the empty string are falsy). -/
def jsOrStr (v : Option String) (d : String) : String :=
  match v with
  | none => d
  | some s => if s = "" then d else s

/-- A DynamoDB attribute value as used by the two handlers (strings, plus the
numeric `class_number` of weekly-plan items). -/
inductive AttrVal where
  | str (s : String)
  | num (n : Nat)
deriving DecidableEq, Repr

/-- JS falsiness of an attribute value (`''` and `0` are falsy). -/
def AttrVal.falsy : AttrVal → Bool
  | .str s => s = ""
  | .num n => n = 0

/-- JS `v || d` over a possibly-absent attribute value. -/
def jsOrAttr (v : Option AttrVal) (d : AttrVal) : AttrVal :=
  match v with
  | none => d
  | some x => if x.falsy then d else x

/-- `String(n).padStart(2, '0')`. -/
def padStart2 (s : String) : String :=
  if s.length < 2 then String.mk (List.replicate (2 - s.length) '0') ++ s else s

/-- Attribute names of a stored homework item
(src/node-scraper/src/scraper/dynamodb.js, `itemData` literal). -/
inductive HwAttr where
  | date | hour_subject | subject | description | hour | due_date
  | homework_text | teacher | class_description | created_at | updated_at
deriving DecidableEq, Repr

/-- Attribute names of a stored weekly-plan item
(manual-deploy.sh, `WeeklyPlanDynamoDBHandler.upsertItems` `itemData` literal). -/
inductive WpAttr where
  | date | class_number_teacher | class_number | teacher | subject
  | class_description | class_comments | day_name | created_at | updated_at
deriving DecidableEq, Repr

/-- `class HomeworkItem` after construction: `date`, `subject`, `description`
may still be `undefined` if missing on the input object; the remaining fields
default to `null`; `createdAt` defaults to the construction time. -/
structure HomeworkItem where
  date : String
  subject : String
  description : Option String
  hour : Option String
  dueDate : Option String
  homeworkText : Option String
  teacher : Option String
  classDescription : Option String
  createdAt : String
deriving DecidableEq, Repr

/-- A plain record object passed to `upsertItems` (scraped homework item):
the fields read by the `HomeworkItem` constructor, with `none` marking an
absent/null property. -/
structure RawRecord where
  date : String
  subject : String
  description : Option String
  hour : Option String
  dueDate : Option String
  homeworkText : Option String
  teacher : Option String
  classDescription : Option String
  createdAt : Option String
deriving DecidableEq, Repr

/-- `new HomeworkItem(item)`: fields are copied; `createdAt` defaults to the
current time when the property is absent. -/
def toHomeworkItem (now : String) (r : RawRecord) : HomeworkItem :=
  { date := r.date
    subject := r.subject
    description := r.description
    hour := r.hour
    dueDate := r.dueDate
    homeworkText := r.homeworkText
    teacher := r.teacher
    classDescription := r.classDescription
    createdAt := r.createdAt.getD now }

/-- `HomeworkItem.hourSubjectKey`: `` `${this.hour || "unknown"}#${this.subject}` ``. -/
def hourSubjectKey (h : HomeworkItem) : String :=
  jsOrStr h.hour "unknown" ++ "#" ++ h.subject

/-- `HomeworkItem.compositeKey`: `` `${this.date}#${hourPart}#${this.subject}` ``. -/
def compositeKey (h : HomeworkItem) : String :=
  h.date ++ "#" ++ jsOrStr h.hour "unknown" ++ "#" ++ h.subject

/-- The `itemData` object literal of `DynamoDBHandler.upsertItems`, before
null/undefined removal, in source order. -/
def hwItemDataRaw (now : String) (h : HomeworkItem) : List (HwAttr × Option AttrVal) :=
  [(.date, some (.str h.date)),
   (.hour_subject, some (.str (hourSubjectKey h))),
   (.subject, some (.str h.subject)),
   (.description, h.description.map .str),
   (.hour, h.hour.map .str),
   (.due_date, h.dueDate.map .str),
   (.homework_text, h.homeworkText.map .str),
   (.teacher, h.teacher.map .str),
   (.class_description, h.classDescription.map .str),
   (.created_at, some (.str h.createdAt)),
   (.updated_at, some (.str now))]

/-- `Object.keys(itemData).forEach(key => { if (itemData[key] === null ||
itemData[key] === undefined) delete itemData[key] })`. -/
def cleanAttrs {κ : Type} (l : List (κ × Option AttrVal)) : List (κ × AttrVal) :=
  l.filterMap fun kv => kv.2.map fun v => (kv.1, v)

/-- The cleaned `itemData` actually passed to `docClient.put`. -/
def hwItemData (now : String) (h : HomeworkItem) : List (HwAttr × AttrVal) :=
  cleanAttrs (hwItemDataRaw now h)

/-- Attribute access on a stored item (`existingItem.foo`): `none` when the
attribute is absent (JS `undefined`). -/
def attrGet {κ : Type} [DecidableEq κ] (item : List (κ × AttrVal)) (k : κ) : Option AttrVal :=
  match item with
  | [] => none
  | (k', v) :: rest => if k' = k then some v else attrGet rest k

/-- A DynamoDB table: composite key `(partition key, sort key)` to item. -/
abbrev Store (κ : Type) := List ((String × String) × List (κ × AttrVal))

/-- `docClient.get({Key})`: the item stored under the key, if any. -/
def storeGet {κ : Type} (s : Store κ) (k : String × String) : Option (List (κ × AttrVal)) :=
  match s with
  | [] => none
  | (k', v) :: rest => if k' = k then some v else storeGet rest k

/-- `docClient.put({Item})`: full replacement of the item at its key. -/
def storePut {κ : Type} (s : Store κ) (k : String × String) (v : List (κ × AttrVal)) : Store κ :=
  match s with
  | [] => [(k, v)]
  | (k', v') :: rest => if k' = k then (k, v) :: rest else (k', v') :: storePut rest k v

/-- The `contentChanged` test of `DynamoDBHandler.upsertItems`:
`(existingItem.homework_text || '') !== (homeworkItem.homeworkText || '') ||
 (existingItem.description || '') !== homeworkItem.description`.
Note the second comparison is asymmetric: the right-hand side is the raw
(possibly null/undefined) `description`, so a null description always
compares unequal to the stored string. -/
def hwContentChanged (existing : List (HwAttr × AttrVal)) (h : HomeworkItem) : Bool :=
  (jsOrAttr (attrGet existing .homework_text) (.str "")
      ≠ jsOrAttr (h.homeworkText.map .str) (.str ""))
  || (match h.description with
      | some d => jsOrAttr (attrGet existing .description) (.str "") ≠ .str d
      | none => true)

/-- The composite key under which a homework record is stored. -/
def hwKey (h : HomeworkItem) : String × String :=
  (h.date, hourSubjectKey h)

/-- One loop iteration of `DynamoDBHandler.upsertItems` for a record whose
processing does not throw: convert, get the existing item, diff, and either
put (counting the write) or skip. -/
def upsertHwOne (now : String) (acc : Store HwAttr × Nat) (r : RawRecord) : Store HwAttr × Nat :=
  let h := toHomeworkItem now r
  let item := hwItemData now h
  match storeGet acc.1 (hwKey h) with
  | some existing =>
      if hwContentChanged existing h then (storePut acc.1 (hwKey h) item, acc.2 + 1)
      else acc
  | none => (storePut acc.1 (hwKey h) item, acc.2 + 1)

/-- A batch entry: either a record whose processing succeeds, or one whose
processing or write throws (the source catches the error, logs it, and
`continue`s with the next record). -/
inductive ProcItem where
  | good (r : RawRecord)
  | bad
deriving DecidableEq, Repr

/-- `DynamoDBHandler.upsertItems(items)`: iterate over the batch, skipping
failed records, and return the final store with the number of records
actually written. -/
def upsertItems (now : String) (items : List ProcItem) (store : Store HwAttr) : Store HwAttr × Nat :=
  items.foldl
    (fun acc it =>
      match it with
      | .bad => acc
      | .good r => upsertHwOne now acc r)
    (store, 0)

/-- `class WeeklyPlanItem` after construction (manual-deploy.sh): all fields
but `date` and `classNumber` default to `null`; `createdAt` defaults to the
construction time. -/
structure WeeklyPlanItem where
  date : String
  classNumber : Nat
  teacher : Option String
  subject : Option String
  classDescription : Option String
  classComments : Option String
  dayName : Option String
  createdAt : String
deriving DecidableEq, Repr

/-- A plain weekly-plan record object passed to
`WeeklyPlanDynamoDBHandler.upsertItems`. -/
structure WpRawRecord where
  date : String
  classNumber : Nat
  teacher : Option String
  subject : Option String
  classDescription : Option String
  classComments : Option String
  dayName : Option String
  createdAt : Option String
deriving DecidableEq, Repr

/-- `new WeeklyPlanItem(item)`. -/
def toWeeklyPlanItem (now : String) (r : WpRawRecord) : WeeklyPlanItem :=
  { date := r.date
    classNumber := r.classNumber
    teacher := r.teacher
    subject := r.subject
    classDescription := r.classDescription
    classComments := r.classComments
    dayName := r.dayName
    createdAt := r.createdAt.getD now }

/-- JS global `\s+` → `'_'` replacement: each maximal whitespace run becomes
a single underscore. The `prevWs` flag records whether the previous character
belonged to a whitespace run. -/
def collapseWsAux (prevWs : Bool) : List Char → List Char
  | [] => []
  | c :: rest =>
      if c.isWhitespace then
        (if prevWs then [] else ['_']) ++ collapseWsAux true rest
      else c :: collapseWsAux false rest

/-- `s.replace(/\s+/g, '_')`. -/
def collapseWs (l : List Char) : List Char := collapseWsAux false l

/-- `WeeklyPlanItem.sortKey`:
`` `${String(classNumber).padStart(2,'0')}#${(teacher || 'unknown').replace(/\s+/g,'_')}` ``. -/
def wpSortKey (p : WeeklyPlanItem) : String :=
  padStart2 (toString p.classNumber) ++ "#" ++
    String.mk (collapseWs (jsOrStr p.teacher "unknown").toList)

/-- The composite key under which a weekly-plan record is stored. -/
def wpKey (p : WeeklyPlanItem) : String × String :=
  (p.date, wpSortKey p)

/-- The `itemData` literal of `WeeklyPlanDynamoDBHandler.upsertItems`, before
null/undefined removal, in source order. -/
def wpItemDataRaw (now : String) (p : WeeklyPlanItem) : List (WpAttr × Option AttrVal) :=
  [(.date, some (.str p.date)),
   (.class_number_teacher, some (.str (wpSortKey p))),
   (.class_number, some (.num p.classNumber)),
   (.teacher, p.teacher.map .str),
   (.subject, p.subject.map .str),
   (.class_description, p.classDescription.map .str),
   (.class_comments, p.classComments.map .str),
   (.day_name, p.dayName.map .str),
   (.created_at, some (.str p.createdAt)),
   (.updated_at, some (.str now))]

/-- The cleaned weekly-plan `itemData` passed to `docClient.put`. -/
def wpItemData (now : String) (p : WeeklyPlanItem) : List (WpAttr × AttrVal) :=
  cleanAttrs (wpItemDataRaw now p)

/-- The weekly-plan `contentChanged` test: all four compared fields are
normalised with `|| ''` on both sides. -/
def wpContentChanged (existing : List (WpAttr × AttrVal)) (p : WeeklyPlanItem) : Bool :=
  (jsOrAttr (attrGet existing .subject) (.str "") ≠ jsOrAttr (p.subject.map .str) (.str ""))
  || (jsOrAttr (attrGet existing .teacher) (.str "") ≠ jsOrAttr (p.teacher.map .str) (.str ""))
  || (jsOrAttr (attrGet existing .class_description) (.str "")
        ≠ jsOrAttr (p.classDescription.map .str) (.str ""))
  || (jsOrAttr (attrGet existing .class_comments) (.str "")
        ≠ jsOrAttr (p.classComments.map .str) (.str ""))

/-- One loop iteration of `WeeklyPlanDynamoDBHandler.upsertItems` for a
record whose processing does not throw. -/
def upsertWpOne (now : String) (acc : Store WpAttr × Nat) (r : WpRawRecord) : Store WpAttr × Nat :=
  let p := toWeeklyPlanItem now r
  let item := wpItemData now p
  match storeGet acc.1 (wpKey p) with
  | some existing =>
      if wpContentChanged existing p then (storePut acc.1 (wpKey p) item, acc.2 + 1)
      else acc
  | none => (storePut acc.1 (wpKey p) item, acc.2 + 1)

/-- A weekly-plan batch entry (`bad` = processing/write throws and the loop
`continue`s). -/
inductive WpProcItem where
  | good (r : WpRawRecord)
  | bad
deriving DecidableEq, Repr

/-- `WeeklyPlanDynamoDBHandler.upsertItems(items)`. -/
def wpUpsertItems (now : String) (items : List WpProcItem) (store : Store WpAttr) :
    Store WpAttr × Nat :=
  items.foldl
    (fun acc it =>
      match it with
      | .bad => acc
      | .good r => upsertWpOne now acc r)
    (store, 0)

/-- Build a `String` from a character list. -/
def strOf (l : List Char) : String := String.mk l

/-- Parse a digit string (`parseInt(s, 10)` on a known-digits capture). -/
def natOfDigits (l : List Char) : Nat :=
  l.foldl (fun n c => n * 10 + (c.toNat - '0'.toNat)) 0

/-- JS `s.trim()`: strip leading and trailing whitespace. -/
def jsTrim (s : String) : String :=
  strOf (((s.toList.dropWhile Char.isWhitespace).reverse.dropWhile
    Char.isWhitespace).reverse)

/-- Candidate matches of the greedy `\d{1,2}` quantifier at the head of `l`,
in backtracking order (two digits first, then one). -/
def digits2or1 (l : List Char) : List (List Char × List Char) :=
  match l with
  | a :: b :: rest =>
      if a.isDigit && b.isDigit then [([a, b], rest), ([a], b :: rest)]
      else if a.isDigit then [([a], b :: rest)] else []
  | [a] => if a.isDigit then [([a], [])] else []
  | [] => []

/-- Try `(\d{1,2})\/(\d{1,2})\/(\d{4})` anchored at the head of `l`,
with JS backtracking over the first two groups. -/
def tryDateAt (l : List Char) : Option (String × String × String) :=
  (digits2or1 l).findSome? fun dd =>
    match dd.2 with
    | '/' :: r2 =>
        (digits2or1 r2).findSome? fun mm =>
          match mm.2 with
          | '/' :: a :: b :: c :: d :: _ =>
              if a.isDigit && b.isDigit && c.isDigit && d.isDigit then
                some (strOf dd.1, strOf mm.1, strOf [a, b, c, d])
              else none
          | _ => none
    | _ => none

/-- Leftmost match of `(\d{1,2})\/(\d{1,2})\/(\d{4})`
(the homework day-card date pattern), as `(day, month, year)` captures. -/
def findDate : List Char → Option (String × String × String)
  | [] => none
  | c :: rest =>
      match tryDateAt (c :: rest) with
      | some r => some r
      | none => findDate rest

/-- Try `(\d{1,2})\/(\d{1,2})` anchored at the head of `l`. -/
def tryDayMonthAt (l : List Char) : Option (String × String) :=
  (digits2or1 l).findSome? fun dd =>
    match dd.2 with
    | '/' :: r2 =>
        (digits2or1 r2).findSome? fun mm => some (strOf dd.1, strOf mm.1)
    | _ => none

/-- Leftmost match of `(\d{1,2})\/(\d{1,2})`
(the weekly-plan day-header pattern), as `(day, month)` captures. -/
def findDayMonth : List Char → Option (String × String)
  | [] => none
  | c :: rest =>
      match tryDayMonthAt (c :: rest) with
      | some r => some r
      | none => findDayMonth rest

/-- Leftmost match of `\/(\d{4})` (the year inside the week-range text). -/
def findYear : List Char → Option String
  | [] => none
  | c :: rest =>
      if c = '/' then
        match rest with
        | a :: b :: c2 :: d :: _ =>
            if a.isDigit && b.isDigit && c2.isDigit && d.isDigit then
              some (strOf [a, b, c2, d])
            else findYear rest
        | _ => findYear rest
      else findYear rest

/-- The Hebrew day names of the weekly-plan header alternation, in source
order. -/
def dayNames : List String :=
  ["ראשון", "שני", "שלישי", "רביעי", "חמישי", "שישי", "שבת"]

/-- Leftmost match of `(ראשון|שני|שלישי|רביעי|חמישי|שישי|שבת)`. -/
def findDayName : List Char → Option String
  | [] => none
  | c :: rest =>
      match dayNames.findSome? (fun n =>
          if n.toList.isPrefixOf (c :: rest) then some n else none) with
      | some n => some n
      | none => findDayName rest

/-- Try `hourIndex_(\d+)`-style patterns anchored at the head of `l`:
the literal `pat` followed by at least one digit (greedy). -/
def tryKeyNumAt (pat : List Char) (l : List Char) : Option Nat :=
  if pat.isPrefixOf l then
    let ds := (l.drop pat.length).takeWhile Char.isDigit
    if ds = [] then none else some (natOfDigits ds)
  else none

/-- Leftmost match of `` `${pat}(\d+)` `` in `l`, with the capture parsed by
`parseInt`. -/
def findKeyNum (pat : List Char) : List Char → Option Nat
  | [] => none
  | c :: rest =>
      match tryKeyNumAt pat (c :: rest) with
      | some n => some n
      | none => findKeyNum pat rest

/-- One `.lesson-homework` row of a day card: the text contents of its
`[role="cell"]` nodes in DOM order, and the text of the `.font-small` node
inside the sixth cell, when present. -/
structure LessonRow where
  cells : List String
  fontSmall : Option String
deriving DecidableEq, Repr

/-- One `mat-card` day card: the text of its `.card-title` node (if present)
and its lesson rows. -/
structure DayCard where
  title : Option String
  rows : List LessonRow
deriving DecidableEq, Repr

/-- A scraped homework item, field for field as pushed by
`scrapeHomeworkFromPage` (homework.js) and `scrapeHomeworkFromPageDirect`
(index.js). -/
structure HwScraped where
  id : String
  date : String
  dayTitle : String
  hour : String
  subject : String
  teacher : String
  status : String
  lessonTopic : String
  homeworkText : String
  description : String
  extractedAt : String
deriving DecidableEq, Repr

/-- `cells[i] ? cells[i].textContent.trim() : ''`. -/
def jsCellText (cells : List String) (i : Nat) : String :=
  jsTrim ((cells.get? i).getD "")

/-- `lessonTopic.replace(/^נושא שיעור:\s*/, '')`. -/
def stripTopicPrefix (s : String) : String :=
  let p := "נושא שיעור:"
  if p.toList.isPrefixOf s.toList then
    strOf ((s.toList.drop p.toList.length).dropWhile Char.isWhitespace)
  else s

/-- The date string derived from a day-card title:
`YYYY-MM-DD` from the first `d/m/yyyy` token, `''` when absent. -/
def cardDate (dayTitle : String) : String :=
  match findDate dayTitle.toList with
  | some (day, month, year) => year ++ "-" ++ padStart2 month ++ "-" ++ padStart2 day
  | none => ""

/-- Processing of one lesson row inside the card loop of
`scrapeHomeworkFromPage`: rows with fewer than six cells, or whose homework
text is empty, produce no item. -/
def extractRow (now : String) (cardIndex : Nat) (date dayTitle : String)
    (rowIndex : Nat) (row : LessonRow) : Option HwScraped :=
  if 6 ≤ row.cells.length then
    let hour := jsCellText row.cells 0
    let subject := jsCellText row.cells 1
    let teacher := jsCellText row.cells 2
    let status := jsCellText row.cells 3
    let lessonTopic := jsCellText row.cells 4
    let homeworkText := match row.fontSmall with | some t => jsTrim t | none => ""
    if homeworkText ≠ "" then
      some { id := "homework_" ++ toString cardIndex ++ "_" ++ toString rowIndex
             date := date
             dayTitle := dayTitle
             hour := hour
             subject := subject
             teacher := teacher
             status := status
             lessonTopic := stripTopicPrefix lessonTopic
             homeworkText := homeworkText
             description := homeworkText
             extractedAt := now }
    else none
  else none

/-- The `dayTitle` of the card at `cardIndex`. -/
def cardTitle (cardIndex : Nat) (card : DayCard) : String :=
  match card.title with
  | some t => jsTrim t
  | none => "Day " ++ toString (cardIndex + 1)

/-- `scrapeHomeworkFromPage` / `scrapeHomeworkFromPageDirect`: the items
collected over all day cards and lesson rows of the page DOM. -/
def scrapeHomeworkFromPage (dom : List DayCard) (now : String) : List HwScraped :=
  dom.enum.flatMap fun p =>
    let dayTitle := cardTitle p.1 p.2
    let date := cardDate dayTitle
    p.2.rows.enum.filterMap fun q => extractRow now p.1 date dayTitle q.1 q.2

/-- A `div` descendant of an `app-event-data` node: its class list and text
content. -/
structure EvDiv where
  classes : List String
  text : String
deriving DecidableEq, Repr

/-- One `div.event-wrapper`: its `id` attribute and, when the
`app-event-data` child exists, that child's `div` descendants in DOM order. -/
structure EventWrapper where
  id : String
  eventData : Option (List EvDiv)
deriving DecidableEq, Repr

/-- The weekly-plan page DOM read by `scrapeWeeklyPlanFromPage`
(weeklyPlan.js): the `.date-range-text span` text, the
`div.schedule-day[role="columnheader"]` texts, and the event wrappers. -/
structure WpDom where
  dateRangeText : Option String
  dayHeaders : List String
  eventWrappers : List EventWrapper
deriving DecidableEq, Repr

/-- A scraped weekly-plan item, field for field as pushed by
`scrapeWeeklyPlanFromPage`. -/
structure WpScraped where
  id : String
  date : String
  dayName : String
  classNumber : Nat
  teacher : String
  subject : String
  classDescription : String
  classComments : String
  extractedAt : String
deriving DecidableEq, Repr

/-- `text.replace(/\(שיעור\)\s*$/, '')`: drop a trailing `(שיעור)` plus
trailing whitespace, when present. -/
def lessonSuffixAt (l : List Char) : Bool :=
  "(שיעור)".toList.isPrefixOf l
    && (l.drop "(שיעור)".toList.length).all Char.isWhitespace

/-- Removal of the leftmost (necessarily final) `\(שיעור\)\s*$` match. -/
def stripLessonSuffix : List Char → List Char
  | [] => []
  | c :: rest =>
      if lessonSuffixAt (c :: rest) then [] else c :: stripLessonSuffix rest

/-- The comments loop of `scrapeWeeklyPlanFromPage`: scan the event's `div`s,
arming on a `bold-text` div, then take the first following non-`gray-text`
div with non-blank trimmed text. -/
def findComments (foundBold : Bool) : List EvDiv → String
  | [] => ""
  | d :: rest =>
      if d.classes.contains "bold-text" then findComments true rest
      else if foundBold && !(d.classes.contains "gray-text") then
        let t := jsTrim d.text
        if t ≠ "" && !(t.toList.all Char.isWhitespace) then t
        else findComments foundBold rest
      else findComments foundBold rest

/-- A character kept by `replace(/[^a-zA-Z0-9_֐-׿]/g, '')`. -/
def keepTeacherChar (c : Char) : Bool :=
  ('a' ≤ c && c ≤ 'z') || ('A' ≤ c && c ≤ 'Z') || ('0' ≤ c && c ≤ '9')
    || c = '_' || (0x590 ≤ c.toNat && c.toNat ≤ 0x5FF)

/-- The sanitised teacher key of the weekly-plan item id:
`teacher.replace(/\s+/g, '_').replace(/[^a-zA-Z0-9_֐-׿]/g, '')`. -/
def teacherKeyOf (teacher : String) : String :=
  strOf ((collapseWs teacher.toList).filter keepTeacherChar)

/-- The `dateIndex → {date, dayName}` entry computed for one day-column
header (an entry exists only when the header carries a `d/m` token; the year
falls back to the current year when the week-range text has no `/yyyy`). -/
def dateMapEntry (nowYear weekDateRange : String) (header : String) :
    Option (String × String) :=
  let headerText := jsTrim header
  match findDayMonth headerText.toList with
  | none => none
  | some (day, month) =>
      let year := (findYear weekDateRange.toList).getD nowYear
      some (year ++ "-" ++ padStart2 month ++ "-" ++ padStart2 day,
            (findDayName headerText.toList).getD "")

/-- The whole `dateMap`, indexed by header position. -/
def dateMapEntries (nowYear weekDateRange : String) (headers : List String) :
    List (Option (String × String)) :=
  headers.map (dateMapEntry nowYear weekDateRange)

/-- Processing of one event wrapper inside `scrapeWeeklyPlanFromPage`:
wrappers whose id lacks an `hourIndex_N`/`dateIndex_N` token, or which have
no `app-event-data` child, are skipped. -/
def extractEvent (now : String) (entries : List (Option (String × String)))
    (w : EventWrapper) : Option WpScraped :=
  match findKeyNum "hourIndex_".toList w.id.toList,
        findKeyNum "dateIndex_".toList w.id.toList with
  | some hourIndex, some dateIndex =>
      match w.eventData with
      | none => none
      | some divs =>
          let teacher :=
            match divs.find? (fun d => d.classes.contains "gray-text") with
            | some d => jsTrim d.text
            | none => ""
          let subjDesc :=
            match divs.find? (fun d =>
                d.classes.contains "bold-text" && d.classes.contains "focus") with
            | none => ("", "")
            | some b =>
                let boldText := jsTrim b.text
                let parts := boldText.splitOn " - "
                let subject := jsOrStr (some (parts.headD "")) ""
                if 1 < parts.length then
                  (subject,
                   jsTrim (strOf (stripLessonSuffix
                       (String.intercalate " - " (parts.drop 1)).toList)))
                else (subject, "")
          let comments := findComments false divs
          let dateInfo := entries.getD dateIndex none
          let date := match dateInfo with | some di => di.1 | none => ""
          let dayName := match dateInfo with | some di => di.2 | none => ""
          let classNumber := hourIndex + 1
          let teacherKey := teacherKeyOf teacher
          some { id := "plan_" ++ date ++ "_" ++ toString classNumber ++ "_" ++ teacherKey
                 date := date
                 dayName := dayName
                 classNumber := classNumber
                 teacher := teacher
                 subject := subjDesc.1
                 classDescription := subjDesc.2
                 classComments := comments
                 extractedAt := now }
  | _, _ => none

/-- `scrapeWeeklyPlanFromPage`: build the date map from the day headers, then
collect an item per parseable event wrapper. `nowYear` is the fallback year
taken from the clock when the week-range text has no `/yyyy` token. -/
def scrapeWeeklyPlanFromPage (dom : WpDom) (nowYear now : String) : List WpScraped :=
  let weekDateRange := match dom.dateRangeText with | some t => jsTrim t | none => ""
  let entries := dateMapEntries nowYear weekDateRange dom.dayHeaders
  dom.eventWrappers.filterMap (extractEvent now entries)

/-- Scan helper for `strContains`. -/
def strContainsAux (pat : List Char) : List Char → Bool
  | [] => pat.isPrefixOf ([] : List Char)
  | c :: rest => pat.isPrefixOf (c :: rest) || strContainsAux pat rest

/-- Boolean substring containment (`url.includes(sub)`). -/
def strContains (s sub : String) : Bool :=
  strContainsAux sub.toList s.toList

/-- The environment observed by `performLogin` (auth.js): whether the login
page responds, whether the username field appears within its wait budget,
whether the password-entry fallback chain and the submit click go through,
and which session artifacts (auth cookies / tokens) exist after submission.
The source never reads `artifacts`; it is carried to state what validation
would have to look at. -/
structure LoginEnv where
  pageLoads : Bool
  usernameFieldAppears : Bool
  passwordEntryOk : Bool
  submitClickOk : Bool
  artifacts : List String
deriving DecidableEq, Repr

/-- The session handle returned on success (page/context/browser triple,
abstracted to the artifacts its context holds). -/
structure Session where
  artifacts : List String
deriving DecidableEq, Repr

/-- `handleCookieConsent`: every branch (button found or not) falls through;
absence of the banner is never an error. -/
def handleCookieConsent (_env : LoginEnv) : Except String Unit := .ok ()

/-- `handleEducationMinistryLogin`: button missing, or still disabled after
all retries, both continue; never an error. -/
def handleEducationMinistryLogin (_env : LoginEnv) : Except String Unit := .ok ()

/-- `fillCredentials`: `waitForSelector(USERNAME_SELECTOR)` throws on
timeout; the password chain throws only when its last fallback
(`keyboard.type`) fails. -/
def fillCredentials (env : LoginEnv) : Except String Unit :=
  if !env.usernameFieldAppears then .error "Timeout waiting for username selector"
  else if !env.passwordEntryOk then .error "Password entry failed"
  else .ok ()

/-- `submitLoginForm`: click the submit selector, then
`waitForTimeout(5000)`. No session artifact is inspected here. -/
def submitLoginForm (env : LoginEnv) : Except String Unit :=
  if !env.submitClickOk then .error "Failed to click submit selector"
  else .ok ()

/-- `performLogin(page)`: goto login URL (fail fast when unresponsive), then
consent, ministry button, credentials, submit — in source order. -/
def performLogin (env : LoginEnv) : Except String Unit :=
  if !env.pageLoads then .error "Login page failed to load"
  else do
    let _ ← handleCookieConsent env
    let _ ← handleEducationMinistryLogin env
    let _ ← fillCredentials env
    submitLoginForm env

/-- `loginAndGetSession()`: on any login error the browser is closed and the
error rethrown; otherwise the live session is returned as-is. -/
def loginAndGetSession (env : LoginEnv) : Except String Session :=
  match performLogin env with
  | .ok _ => .ok { artifacts := env.artifacts }
  | .error e => .error e

/-- The weekly-plan page state observed by `navigateToWeeklyPlanPage`
(auth.js): whether `page.goto` returned a response, the arrived URL, and the
probe targets of `validateWeeklyPlanPage`. -/
structure WpNavPage where
  responseOk : Bool
  url : String
  hasWeeklyScheduleEl : Bool
  hasGridEl : Bool
  dayHeaderCount : Nat
deriving DecidableEq, Repr

/-- `validateWeeklyPlanPage(page)`: URL must contain `Weekly_Plan` and the
page must have the `app-weekly-scedule` component, the grid, and at least one
day column header. -/
def validateWeeklyPlanPage (p : WpNavPage) : Bool :=
  if !(strContains p.url "Weekly_Plan") then false
  else p.hasWeeklyScheduleEl && p.hasGridEl && decide (0 < p.dayHeaderCount)

/-- `navigateToWeeklyPlanPage(page)`: throws when the page fails to load or
the URL shows a redirect to the login page; a failed
`validateWeeklyPlanPage` probe only logs a warning and the function still
returns `true`. -/
def navigateToWeeklyPlanPage (p : WpNavPage) : Except String Bool :=
  if !p.responseOk then .error "Weekly Plan page failed to load"
  else if strContains p.url "/account/login" then
    .error "Session expired - redirected to login page"
  else
    -- `validateWeeklyPlanPage` result is only warned about, never thrown
    .ok true

/-- The homework-navigation page state observed by `navigateToHomeworkPage`
(auth.js): whether the student-card link and the homework link are found by
any of their fallback selectors. -/
structure HwNavPage where
  studentCardBtn : Bool
  homeworkBtn : Bool
deriving DecidableEq, Repr

/-- `navigateToHomeworkPage(page)`: a missing button produces a
`console.warn` and the function returns normally; no arrival validation is
performed. The returned list is the warnings emitted. -/
def navigateToHomeworkPage (p : HwNavPage) : Except String (List String) :=
  if p.studentCardBtn then
    if p.homeworkBtn then .ok []
    else .ok ["Could not find homework button"]
  else .ok ["Could not find student card button"]

/-- The per-kind result fields of `runAllScrapers` (index.js): a JS value
that is the initial zero / upsert count, or the raw item array when the run
does not save (or scraped nothing). -/
inductive HwField where
  | cnt (n : Nat)
  | data (l : List ProcItem)
deriving DecidableEq, Repr

/-- The weekly-plan result field of `runAllScrapers`. -/
inductive WpField where
  | cnt (n : Nat)
  | data (l : List WpProcItem)
deriving DecidableEq, Repr

/-- The `results` object returned by `runAllScrapers`. -/
structure BothResults where
  homework : HwField
  weeklyPlan : WpField
deriving DecidableEq, Repr

/-- `runAllScrapers(options)`: one login shared by both scrapers; each
scraper runs inside its own `try`/`catch`, so a failure in one leaves the
other's result intact and the `results` object is still returned; only a
login failure propagates (after the `finally` session teardown). The two
phase arguments are the outcomes of navigation + extraction for each kind. -/
def runAllScrapers (now : String) (login : Except String Session)
    (hwPhase : Except String (List ProcItem))
    (wpPhase : Except String (List WpProcItem))
    (save : Bool) (hwStore : Store HwAttr) (wpStore : Store WpAttr) :
    Except String (BothResults × Store HwAttr × Store WpAttr) :=
  match login with
  | .error e => .error e
  | .ok _ =>
      let hwStep : HwField × Store HwAttr :=
        match hwPhase with
        | .error _ => (.cnt 0, hwStore)      -- caught; results.homework stays 0
        | .ok items =>
            if save && decide (0 < items.length) then
              let r := upsertItems now items hwStore
              (.cnt r.2, r.1)
            else (.data items, hwStore)
      let wpStep : WpField × Store WpAttr :=
        match wpPhase with
        | .error _ => (.cnt 0, wpStore)      -- caught; results.weeklyPlan stays 0
        | .ok items =>
            if save && decide (0 < items.length) then
              let r := wpUpsertItems now items wpStore
              (.cnt r.2, r.1)
            else (.data items, wpStore)
      .ok ({ homework := hwStep.1, weeklyPlan := wpStep.1 }, hwStep.2, wpStep.2)

/-- `Except` success as a Boolean (for stating "never raises"). -/
def isOkB {ε α : Type} : Except ε α → Bool
  | .ok _ => true
  | .error _ => false

/-- A scraped homework item with the `extractedAt` timestamp erased. -/
structure HwErased where
  id : String
  date : String
  dayTitle : String
  hour : String
  subject : String
  teacher : String
  status : String
  lessonTopic : String
  homeworkText : String
  description : String
deriving DecidableEq, Repr

/-- Drop the `extractedAt` field of a scraped homework item. -/
def eraseHw (x : HwScraped) : HwErased :=
  { id := x.id, date := x.date, dayTitle := x.dayTitle, hour := x.hour
    subject := x.subject, teacher := x.teacher, status := x.status
    lessonTopic := x.lessonTopic, homeworkText := x.homeworkText
    description := x.description }

/-- A scraped weekly-plan item with the `extractedAt` timestamp erased. -/
structure WpErased where
  id : String
  date : String
  dayName : String
  classNumber : Nat
  teacher : String
  subject : String
  classDescription : String
  classComments : String
deriving DecidableEq, Repr

/-- Drop the `extractedAt` field of a scraped weekly-plan item. -/
def eraseWp (x : WpScraped) : WpErased :=
  { id := x.id, date := x.date, dayName := x.dayName
    classNumber := x.classNumber, teacher := x.teacher, subject := x.subject
    classDescription := x.classDescription, classComments := x.classComments }

/-! ### Concrete example inputs used by claim witnesses and counterexamples -/

/-- A homework record with a null `hour`, used to instantiate the C9 claim. -/
def exC9item : HomeworkItem :=
  { date := "2025-01-05", subject := "מתמטיקה", description := some "hw"
    hour := none, dueDate := none, homeworkText := some "hw"
    teacher := none, classDescription := none
    createdAt := "2025-01-05T00:00:00Z" }

/-- The C7 scenario batch: five records, the third of which fails during
processing (e.g. an unparseable item that makes the constructor throw). -/
def exC7batch : List ProcItem :=
  [ProcItem.good { date := "2025-01-05", subject := "a", description := some "hw a"
                   hour := some "1", dueDate := none, homeworkText := some "hw a"
                   teacher := none, classDescription := none, createdAt := none },
   ProcItem.good { date := "2025-01-05", subject := "b", description := some "hw b"
                   hour := some "2", dueDate := none, homeworkText := some "hw b"
                   teacher := none, classDescription := none, createdAt := none },
   ProcItem.bad,
   ProcItem.good { date := "2025-01-06", subject := "c", description := some "hw c"
                   hour := some "3", dueDate := none, homeworkText := some "hw c"
                   teacher := none, classDescription := none, createdAt := none },
   ProcItem.good { date := "2025-01-06", subject := "e", description := some "hw e"
                   hour := some "4", dueDate := none, homeworkText := some "hw e"
                   teacher := none, classDescription := none, createdAt := none }]

/-- The originally stored record of the C1 counterexample. -/
def exC1rOld : RawRecord :=
  { date := "2025-01-05", subject := "math", description := some "old homework"
    hour := some "1", dueDate := none, homeworkText := some "old homework"
    teacher := none, classDescription := none, createdAt := none }

/-- The re-scraped record of the C1 counterexample: same composite key,
different homework text. -/
def exC1rNew : RawRecord :=
  { exC1rOld with description := some "new homework", homeworkText := some "new homework" }

/-- The store after the first upsert of the C1 counterexample (written at an
earlier run time). -/
def exC1store : Store HwAttr := (upsertHwOne "2024-09-01T00:00:00Z" ([], 0) exC1rOld).1

/-- The store after re-upserting the changed record at the later run time. -/
def exC1after : Store HwAttr :=
  (upsertHwOne "2025-06-01T12:00:00Z" (exC1store, 0) exC1rNew).1

/-- The composite key shared by both C1 records. -/
def exC1key : String × String := hwKey (toHomeworkItem "2025-06-01T12:00:00Z" exC1rNew)

/-- A well-formed record (non-null description) for the C4 theorems. -/
def exC4good : RawRecord :=
  { date := "2025-01-05", subject := "math", description := some "hw"
    hour := some "1", dueDate := none, homeworkText := some "hw"
    teacher := none, classDescription := none, createdAt := none }

/-- The same record with a null description, exercising the asymmetric
`contentChanged` comparison. -/
def exC4bad : RawRecord := { exC4good with description := none }

/-- The composite key of the C4 records. -/
def exC4key : String × String := hwKey (toHomeworkItem "T1" exC4bad)

/-- The weekly-plan record used by the C4 witness. -/
def exC4wr : WpRawRecord :=
  { date := "2025-01-05", classNumber := 3, teacher := some "לוי צפורה"
    subject := some "אנגלית", classDescription := none, classComments := none
    dayName := none, createdAt := none }

/-- A one-card, one-row homework page DOM whose single row has homework. -/
def exC5dom : List DayCard :=
  [{ title := some "16/11/2025"
     rows := [{ cells := ["1", "מתמטיקה", "כהן", "התקיים", "top", "cell"]
                fontSmall := some "לתרגל עמוד 5" }] }]

/-- The record extracted from `exC5dom`. -/
def exC5item : HwScraped :=
  { id := "homework_0_0", date := "2025-11-16", dayTitle := "16/11/2025"
    hour := "1", subject := "מתמטיקה", teacher := "כהן", status := "התקיים"
    lessonTopic := "top", homeworkText := "לתרגל עמוד 5"
    description := "לתרגל עמוד 5", extractedAt := "T" }

/-- The homework page DOM of the C6 counterexample. -/
def exC6dom : List DayCard :=
  [{ title := some "16/11/2025"
     rows := [{ cells := ["1", "מתמטיקה", "כהן", "התקיים", "top", "cell"]
                fontSmall := some "לתרגל" }] }]

/-- A completed login attempt after which no session artifact whatsoever is
present. -/
def exC2env : LoginEnv :=
  { pageLoads := true, usernameFieldAppears := true, passwordEntryOk := true
    submitClickOk := true, artifacts := [] }

/-- A weekly-plan page state that loaded, is not a login redirect, and fails
the content probe (no schedule component, no grid, no day headers). -/
def exC3page : WpNavPage :=
  { responseOk := true
    url := "https://webtopserver.smartschool.co.il/Weekly_Plan"
    hasWeeklyScheduleEl := false, hasGridEl := false, dayHeaderCount := 0 }

/-! ### Helper lemmas -/

theorem storeGet_storePut_self {κ : Type} (s : Store κ) (k : String × String)
    (v : List (κ × AttrVal)) : storeGet (storePut s k v) k = some v := by
  induction s with
  | nil => simp [storePut, storeGet]
  | cons hd tl ih =>
      obtain ⟨k', v'⟩ := hd
      by_cases hk : k' = k
      · simp [storePut, storeGet, hk]
      · simp [storePut, storeGet, hk, ih]

theorem hwItemData_attrGet (now : String) (h : HomeworkItem) :
    attrGet (hwItemData now h) .date = some (.str h.date) ∧
    attrGet (hwItemData now h) .hour_subject = some (.str (hourSubjectKey h)) ∧
    attrGet (hwItemData now h) .subject = some (.str h.subject) ∧
    attrGet (hwItemData now h) .description = h.description.map .str ∧
    attrGet (hwItemData now h) .hour = h.hour.map .str ∧
    attrGet (hwItemData now h) .due_date = h.dueDate.map .str ∧
    attrGet (hwItemData now h) .homework_text = h.homeworkText.map .str ∧
    attrGet (hwItemData now h) .teacher = h.teacher.map .str ∧
    attrGet (hwItemData now h) .class_description = h.classDescription.map .str ∧
    attrGet (hwItemData now h) .created_at = some (.str h.createdAt) ∧
    attrGet (hwItemData now h) .updated_at = some (.str now) := by
  obtain ⟨d, s, de, ho, du, hw, te, cd, ca⟩ := h
  cases de <;> cases ho <;> cases du <;> cases hw <;> cases te <;> cases cd <;>
    simp [hwItemData, hwItemDataRaw, cleanAttrs, attrGet]

theorem wpItemData_attrGet (now : String) (p : WeeklyPlanItem) :
    attrGet (wpItemData now p) .date = some (.str p.date) ∧
    attrGet (wpItemData now p) .class_number_teacher = some (.str (wpSortKey p)) ∧
    attrGet (wpItemData now p) .class_number = some (.num p.classNumber) ∧
    attrGet (wpItemData now p) .teacher = p.teacher.map .str ∧
    attrGet (wpItemData now p) .subject = p.subject.map .str ∧
    attrGet (wpItemData now p) .class_description = p.classDescription.map .str ∧
    attrGet (wpItemData now p) .class_comments = p.classComments.map .str ∧
    attrGet (wpItemData now p) .day_name = p.dayName.map .str ∧
    attrGet (wpItemData now p) .created_at = some (.str p.createdAt) ∧
    attrGet (wpItemData now p) .updated_at = some (.str now) := by
  obtain ⟨d, cn, te, su, cd, cc, dn, ca⟩ := p
  cases te <;> cases su <;> cases cd <;> cases cc <;> cases dn <;>
    simp [wpItemData, wpItemDataRaw, cleanAttrs, attrGet]

theorem filterMap_map_congr {α β γ : Type} (l : List α) (f g : α → Option β)
    (e : β → γ) (hp : ∀ a, (f a).map e = (g a).map e) :
    (l.filterMap f).map e = (l.filterMap g).map e := by
  induction l with
  | nil => rfl
  | cons a t ih =>
      have ha := hp a
      cases hfa : f a <;> cases hga : g a <;>
        simp [hfa, hga, List.filterMap_cons] at ha ⊢ <;> simp [ha, ih]

theorem flatMap_map_congr {α β γ : Type} (l : List α) (f g : α → List β)
    (e : β → γ) (hp : ∀ a, (f a).map e = (g a).map e) :
    (l.flatMap f).map e = (l.flatMap g).map e := by
  induction l with
  | nil => rfl
  | cons a t ih => simp [List.flatMap_cons, hp a, ih]

theorem extractRow_erase (t1 t2 : String) (ci ri : Nat) (date dayTitle : String)
    (row : LessonRow) :
    (extractRow t1 ci date dayTitle ri row).map eraseHw
      = (extractRow t2 ci date dayTitle ri row).map eraseHw := by
  simp only [extractRow]
  split_ifs <;> simp [eraseHw]

theorem extractEvent_erase (t1 t2 : String)
    (entries : List (Option (String × String))) (w : EventWrapper) :
    (extractEvent t1 entries w).map eraseWp
      = (extractEvent t2 entries w).map eraseWp := by
  simp only [extractEvent]
  cases hk : findKeyNum "hourIndex_".toList w.id.toList <;>
    cases hd : findKeyNum "dateIndex_".toList w.id.toList <;>
      cases he : w.eventData <;> simp [eraseWp]

theorem extractRow_some_homeworkText (now : String) (ci ri : Nat)
    (date dayTitle : String) (row : LessonRow) (it : HwScraped)
    (h : extractRow now ci date dayTitle ri row = some it) :
    it.homeworkText ≠ "" := by
  simp only [extractRow] at h
  split_ifs at h with h1 h2
  · cases h
    simpa using h2

/-- Second upsert of an identical homework record (with a non-null
description) against the store produced by the first: `contentChanged` is
false, so nothing happens. -/
theorem upsertHwOne_noop_after_put (now1 now2 : String) (s : Store HwAttr)
    (r : RawRecord) (d : String) (hdesc : r.description = some d) :
    upsertHwOne now2
      (storePut s (hwKey (toHomeworkItem now1 r))
        (hwItemData now1 (toHomeworkItem now1 r)), 0) r
    = (storePut s (hwKey (toHomeworkItem now1 r))
        (hwItemData now1 (toHomeworkItem now1 r)), 0) := by
  have hkey : hwKey (toHomeworkItem now2 r) = hwKey (toHomeworkItem now1 r) := rfl
  have hget := storeGet_storePut_self s (hwKey (toHomeworkItem now1 r))
    (hwItemData now1 (toHomeworkItem now1 r))
  have hlk := hwItemData_attrGet now1 (toHomeworkItem now1 r)
  have hchanged :
      hwContentChanged (hwItemData now1 (toHomeworkItem now1 r))
        (toHomeworkItem now2 r) = false := by
    simp only [hwContentChanged, hlk.2.2.2.2.2.2.1, hlk.2.2.2.1]
    have hde : (toHomeworkItem now2 r).description = some d := hdesc
    have hde1 : (toHomeworkItem now1 r).description = some d := hdesc
    have hhw : (toHomeworkItem now2 r).homeworkText
        = (toHomeworkItem now1 r).homeworkText := rfl
    simp [hde, hde1, hhw, jsOrAttr, AttrVal.falsy]
    intro h
    exact h.symm
  simp [upsertHwOne, hkey, hget, hchanged]

/-- Second upsert of an identical weekly-plan record against the store
produced by the first: all four compared fields are normalised symmetrically,
so `contentChanged` is false and nothing happens. -/
theorem upsertWpOne_noop_after_put (now1 now2 : String) (s : Store WpAttr)
    (r : WpRawRecord) :
    upsertWpOne now2
      (storePut s (wpKey (toWeeklyPlanItem now1 r))
        (wpItemData now1 (toWeeklyPlanItem now1 r)), 0) r
    = (storePut s (wpKey (toWeeklyPlanItem now1 r))
        (wpItemData now1 (toWeeklyPlanItem now1 r)), 0) := by
  have hkey : wpKey (toWeeklyPlanItem now2 r) = wpKey (toWeeklyPlanItem now1 r) := rfl
  have hget := storeGet_storePut_self s (wpKey (toWeeklyPlanItem now1 r))
    (wpItemData now1 (toWeeklyPlanItem now1 r))
  have hlk := wpItemData_attrGet now1 (toWeeklyPlanItem now1 r)
  have hchanged :
      wpContentChanged (wpItemData now1 (toWeeklyPlanItem now1 r))
        (toWeeklyPlanItem now2 r) = false := by
    simp only [wpContentChanged, hlk.2.2.2.1, hlk.2.2.2.2.1, hlk.2.2.2.2.2.1,
      hlk.2.2.2.2.2.2.1]
    simp [show (toWeeklyPlanItem now2 r).teacher = (toWeeklyPlanItem now1 r).teacher from rfl,
      show (toWeeklyPlanItem now2 r).subject = (toWeeklyPlanItem now1 r).subject from rfl,
      show (toWeeklyPlanItem now2 r).classDescription
          = (toWeeklyPlanItem now1 r).classDescription from rfl,
      show (toWeeklyPlanItem now2 r).classComments
          = (toWeeklyPlanItem now1 r).classComments from rfl]
  simp [upsertWpOne, hkey, hget, hchanged]

/-! ### Claim theorems -/

/-- Claim C9 (confirmed): for every homework record whose `hour` is absent
(null or missing), the derived sort key is the string `"unknown#<subject>"` —
composite-key derivation is total and stable under the missing optional
field. -/
theorem c9_null_hour_key (h : HomeworkItem) (hh : h.hour = none) :
    hourSubjectKey h = "unknown#" ++ h.subject := by
  obtain ⟨d, s, de, ho, du, hw, te, cd, ca⟩ := h
  subst hh
  rfl

/-- Witness for C9 at a concrete record with `hour = none`. -/
theorem c9_null_hour_key_witness :
    exC9item.hour = none ∧ hourSubjectKey exC9item = "unknown#" ++ exC9item.subject :=
  ⟨rfl, c9_null_hour_key exC9item rfl⟩

/-- Claim C10 (confirmed): the item written by either upsert handler carries
exactly the non-null fields of the input record — key attributes and
timestamps are always present with their computed values, each optional field
is present with its (non-null) value exactly when it is non-null on the
record, and no attribute ever holds a null. -/
theorem c10_no_null_attributes (now : String) (h : HomeworkItem) (p : WeeklyPlanItem) :
    (attrGet (hwItemData now h) .date = some (.str h.date)
      ∧ attrGet (hwItemData now h) .hour_subject = some (.str (hourSubjectKey h))
      ∧ attrGet (hwItemData now h) .subject = some (.str h.subject)
      ∧ attrGet (hwItemData now h) .description = h.description.map .str
      ∧ attrGet (hwItemData now h) .hour = h.hour.map .str
      ∧ attrGet (hwItemData now h) .due_date = h.dueDate.map .str
      ∧ attrGet (hwItemData now h) .homework_text = h.homeworkText.map .str
      ∧ attrGet (hwItemData now h) .teacher = h.teacher.map .str
      ∧ attrGet (hwItemData now h) .class_description = h.classDescription.map .str
      ∧ attrGet (hwItemData now h) .created_at = some (.str h.createdAt)
      ∧ attrGet (hwItemData now h) .updated_at = some (.str now))
    ∧ (attrGet (wpItemData now p) .date = some (.str p.date)
      ∧ attrGet (wpItemData now p) .class_number_teacher = some (.str (wpSortKey p))
      ∧ attrGet (wpItemData now p) .class_number = some (.num p.classNumber)
      ∧ attrGet (wpItemData now p) .teacher = p.teacher.map .str
      ∧ attrGet (wpItemData now p) .subject = p.subject.map .str
      ∧ attrGet (wpItemData now p) .class_description = p.classDescription.map .str
      ∧ attrGet (wpItemData now p) .class_comments = p.classComments.map .str
      ∧ attrGet (wpItemData now p) .day_name = p.dayName.map .str
      ∧ attrGet (wpItemData now p) .created_at = some (.str p.createdAt)
      ∧ attrGet (wpItemData now p) .updated_at = some (.str now)) :=
  ⟨hwItemData_attrGet now h, wpItemData_attrGet now p⟩

/-- Claim C7 (confirmed): in both upsert handlers a per-record failure is
swallowed and the rest of the batch is processed exactly as if the failing
record were not there, and the returned value counts the records actually
written: in the five-record scenario with one bad record over an empty store,
the call returns 4 and all four good records are stored. -/
theorem c7_partial_success_batching :
    (∀ (now : String) (pre post : List ProcItem) (store : Store HwAttr),
        upsertItems now (pre ++ ProcItem.bad :: post) store
          = upsertItems now (pre ++ post) store)
    ∧ (∀ (now : String) (pre post : List WpProcItem) (wstore : Store WpAttr),
        wpUpsertItems now (pre ++ WpProcItem.bad :: post) wstore
          = wpUpsertItems now (pre ++ post) wstore)
    ∧ (upsertItems "2025-01-06T16:30:00Z" exC7batch []).2 = 4
    ∧ ((storeGet (upsertItems "2025-01-06T16:30:00Z" exC7batch []).1
          ("2025-01-05", "1#a")).isSome = true
      ∧ (storeGet (upsertItems "2025-01-06T16:30:00Z" exC7batch []).1
          ("2025-01-05", "2#b")).isSome = true
      ∧ (storeGet (upsertItems "2025-01-06T16:30:00Z" exC7batch []).1
          ("2025-01-06", "3#c")).isSome = true
      ∧ (storeGet (upsertItems "2025-01-06T16:30:00Z" exC7batch []).1
          ("2025-01-06", "4#e")).isSome = true) := by
  refine ⟨?_, ?_, by decide, by decide, by decide, by decide, by decide⟩
  · intro now pre post store
    simp [upsertItems, List.foldl_append]
  · intro now pre post wstore
    simp [wpUpsertItems, List.foldl_append]

/-- Claim C8 (confirmed): when `runAllScrapers` runs both kinds over the one
shared session and the weekly-plan phase fails after homework extraction and
persistence succeeded, the run still returns normally with the homework
upsert count in the per-kind result object (the weekly-plan slot keeping its
initial 0), and the homework writes are kept. -/
theorem c8_schedule_failure_keeps_homework (now : String) (sess : Session)
    (r : ProcItem) (rest : List ProcItem) (err : String)
    (hwStore : Store HwAttr) (wpStore : Store WpAttr) :
    runAllScrapers now (.ok sess) (.ok (r :: rest)) (.error err) true hwStore wpStore
      = .ok ({ homework := .cnt (upsertItems now (r :: rest) hwStore).2,
               weeklyPlan := .cnt 0 },
             (upsertItems now (r :: rest) hwStore).1, wpStore) := by
  simp [runAllScrapers]

/-- Counterexample to C1 as stated: a stored item with
`created_at = 2024-09-01…` is upserted with changed content at
`2025-06-01…`; afterwards its `created_at` is the upsert-time value, not the
value the stored item had before — `created_at` is not immutable. -/
theorem c1_counterexample :
    hwContentChanged ((storeGet exC1store exC1key).getD [])
        (toHomeworkItem "2025-06-01T12:00:00Z" exC1rNew) = true
    ∧ attrGet ((storeGet exC1store exC1key).getD []) .created_at
        = some (.str "2024-09-01T00:00:00Z")
    ∧ attrGet ((storeGet exC1after exC1key).getD []) .created_at
        = some (.str "2025-06-01T12:00:00Z")
    ∧ attrGet ((storeGet exC1after exC1key).getD []) .created_at
        ≠ attrGet ((storeGet exC1store exC1key).getD []) .created_at := by
  decide

/-- Claim C1 as amended (the code on a content-changing upsert of an existing
key): the stored item is fully replaced; its `updated_at` is the time of the
upsert, while its `created_at` is the *incoming* record's `createdAt` — which
defaults to the upsert-processing time when the record carries none — rather
than the `created_at` the stored item had before. -/
theorem c1_amended (now : String) (store : Store HwAttr) (n : Nat) (r : RawRecord)
    (ex : List (HwAttr × AttrVal))
    (hex : storeGet store (hwKey (toHomeworkItem now r)) = some ex)
    (hch : hwContentChanged ex (toHomeworkItem now r) = true) :
    storeGet (upsertHwOne now (store, n) r).1 (hwKey (toHomeworkItem now r))
      = some (hwItemData now (toHomeworkItem now r))
    ∧ attrGet (hwItemData now (toHomeworkItem now r)) .updated_at = some (.str now)
    ∧ attrGet (hwItemData now (toHomeworkItem now r)) .created_at
        = some (.str (r.createdAt.getD now))
    ∧ (upsertHwOne now (store, n) r).2 = n + 1 := by
  have hca : (toHomeworkItem now r).createdAt = r.createdAt.getD now := rfl
  refine ⟨?_, (hwItemData_attrGet now (toHomeworkItem now r)).2.2.2.2.2.2.2.2.2.2, ?_, ?_⟩
  · simp [upsertHwOne, hex, hch, storeGet_storePut_self]
  · rw [← hca]
    exact (hwItemData_attrGet now (toHomeworkItem now r)).2.2.2.2.2.2.2.2.2.1
  · simp [upsertHwOne, hex, hch]

/-- Witness for the amended C1 at the concrete counterexample inputs. -/
theorem c1_amended_witness :
    storeGet exC1after exC1key
      = some (hwItemData "2025-06-01T12:00:00Z"
          (toHomeworkItem "2025-06-01T12:00:00Z" exC1rNew))
    ∧ attrGet (hwItemData "2025-06-01T12:00:00Z"
          (toHomeworkItem "2025-06-01T12:00:00Z" exC1rNew)) .updated_at
        = some (.str "2025-06-01T12:00:00Z")
    ∧ attrGet (hwItemData "2025-06-01T12:00:00Z"
          (toHomeworkItem "2025-06-01T12:00:00Z" exC1rNew)) .created_at
        = some (.str (exC1rNew.createdAt.getD "2025-06-01T12:00:00Z")) := by
  have h := c1_amended "2025-06-01T12:00:00Z" exC1store 0 exC1rNew
    ((storeGet exC1store exC1key).getD []) (by decide) (by decide)
  exact ⟨h.1, h.2.1, h.2.2.1⟩

/-- Counterexample to C4 as stated, on two concrete inputs:
(a) re-upserting an identical record whose `description` is null writes
again — the second call performs a write, increments the count and changes
`updated_at` (because `'' !== null`); and (b) upserting a record into a store
that already holds identical content performs no write on the *first* call
(count 0). -/
theorem c4_counterexample :
    (upsertHwOne "T2" ((upsertHwOne "T1" ([], 0) exC4bad).1, 0) exC4bad).2 = 1
    ∧ attrGet ((storeGet (upsertHwOne "T1" ([], 0) exC4bad).1 exC4key).getD [])
        .updated_at = some (.str "T1")
    ∧ attrGet ((storeGet (upsertHwOne "T2"
          ((upsertHwOne "T1" ([], 0) exC4bad).1, 0) exC4bad).1 exC4key).getD [])
        .updated_at = some (.str "T2")
    ∧ (upsertHwOne "T9" ((upsertHwOne "T0" ([], 0) exC4good).1, 0) exC4good).2 = 0 := by
  decide

/-- Claim C4 as amended: for every homework record with a *non-null*
description, and every store whose item at the record's key (if any) differs
from it in content, upserting the record and then upserting it again performs
exactly one write: the first call writes and returns count 1, the second call
is a no-op — count 0 and the store (hence `updated_at`) unchanged. The
weekly-plan handler satisfies the same two-call property with no description
proviso (its comparisons are symmetric). -/
theorem c4_amended (now1 now2 : String) (store : Store HwAttr) (r : RawRecord)
    (d : String) (hdesc : r.description = some d)
    (hch : ∀ ex, storeGet store (hwKey (toHomeworkItem now1 r)) = some ex →
        hwContentChanged ex (toHomeworkItem now1 r) = true) :
    ((upsertHwOne now1 (store, 0) r).2 = 1
      ∧ upsertHwOne now2 ((upsertHwOne now1 (store, 0) r).1, 0) r
          = ((upsertHwOne now1 (store, 0) r).1, 0))
    ∧ (∀ (wstore : Store WpAttr) (wr : WpRawRecord),
        (∀ ex, storeGet wstore (wpKey (toWeeklyPlanItem now1 wr)) = some ex →
            wpContentChanged ex (toWeeklyPlanItem now1 wr) = true) →
        (upsertWpOne now1 (wstore, 0) wr).2 = 1
          ∧ upsertWpOne now2 ((upsertWpOne now1 (wstore, 0) wr).1, 0) wr
              = ((upsertWpOne now1 (wstore, 0) wr).1, 0)) := by
  have hp1 : upsertHwOne now1 (store, 0) r
      = (storePut store (hwKey (toHomeworkItem now1 r))
          (hwItemData now1 (toHomeworkItem now1 r)), 1) := by
    cases hex : storeGet store (hwKey (toHomeworkItem now1 r)) with
    | none => simp [upsertHwOne, hex]
    | some ex => simp [upsertHwOne, hex, hch ex hex]
  refine ⟨⟨by rw [hp1], ?_⟩, ?_⟩
  · rw [hp1]
    exact upsertHwOne_noop_after_put now1 now2 store r d hdesc
  · intro wstore wr hwch
    have hq1 : upsertWpOne now1 (wstore, 0) wr
        = (storePut wstore (wpKey (toWeeklyPlanItem now1 wr))
            (wpItemData now1 (toWeeklyPlanItem now1 wr)), 1) := by
      cases hex : storeGet wstore (wpKey (toWeeklyPlanItem now1 wr)) with
      | none => simp [upsertWpOne, hex]
      | some ex => simp [upsertWpOne, hex, hwch ex hex]
    refine ⟨by rw [hq1], ?_⟩
    rw [hq1]
    exact upsertWpOne_noop_after_put now1 now2 wstore wr

/-- Witness for the amended C4 at concrete records over the empty stores. -/
theorem c4_amended_witness :
    ((upsertHwOne "T1" ([], 0) exC4good).2 = 1
      ∧ upsertHwOne "T2" ((upsertHwOne "T1" ([], 0) exC4good).1, 0) exC4good
          = ((upsertHwOne "T1" ([], 0) exC4good).1, 0))
    ∧ ((upsertWpOne "T1" ([], 0) exC4wr).2 = 1
      ∧ upsertWpOne "T2" ((upsertWpOne "T1" ([], 0) exC4wr).1, 0) exC4wr
          = ((upsertWpOne "T1" ([], 0) exC4wr).1, 0)) := by
  have h := c4_amended "T1" "T2" [] exC4good "hw" rfl
    (fun ex hex => Option.noConfusion hex)
  exact ⟨h.1, h.2 [] exC4wr (fun ex hex => Option.noConfusion hex)⟩

/-- Claim C5 (confirmed): a lesson row whose homework text is empty yields no
record (first conjunct, at the row level — this covers both the missing
`.font-small` node and blank text after trimming), and consequently every
record emitted by homework extraction carries non-empty homework text (second
conjunct) — absence of assigned work is never represented as an empty-string
record. -/
theorem c5_empty_homework_rows_emit_nothing :
    (∀ (now : String) (ci : Nat) (date dayTitle : String) (ri : Nat) (row : LessonRow),
        (match row.fontSmall with | some t => jsTrim t | none => "") = "" →
        extractRow now ci date dayTitle ri row = none)
    ∧ (∀ (dom : List DayCard) (now : String) (it : HwScraped),
        it ∈ scrapeHomeworkFromPage dom now → it.homeworkText ≠ "") := by
  constructor
  · intro now ci date dayTitle ri row hmt
    simp [extractRow, hmt]
  · intro dom now it hmem
    simp only [scrapeHomeworkFromPage, List.mem_flatMap, List.mem_filterMap] at hmem
    obtain ⟨p, _, q, _, hrow⟩ := hmem
    exact extractRow_some_homeworkText now p.1 q.1 (cardDate (cardTitle p.1 p.2))
      (cardTitle p.1 p.2) q.2 it hrow

/-- Witness for C5: a concrete blank-text row produces no record, and the
concrete record extracted from `exC5dom` has non-empty homework text. -/
theorem c5_empty_homework_rows_emit_nothing_witness :
    extractRow "T" 0 "2025-11-16" "16/11/2025" 0
      { cells := ["1", "m", "t", "s", "top", "cell"], fontSmall := some "   " } = none
    ∧ exC5item.homeworkText ≠ "" :=
  ⟨c5_empty_homework_rows_emit_nothing.1 "T" 0 "2025-11-16" "16/11/2025" 0
      { cells := ["1", "m", "t", "s", "top", "cell"], fontSmall := some "   " }
      (by decide),
   c5_empty_homework_rows_emit_nothing.2 exC5dom "T" exC5item (by decide)⟩

/-- Counterexample to C6 as stated: over the same unchanged DOM snapshot, two
homework extraction calls at different instants return different record
sequences — the emitted record's `extractedAt` field carries each call's
clock reading. -/
theorem c6_counterexample :
    scrapeHomeworkFromPage exC6dom "2025-11-16T10:00:00.000Z"
      ≠ scrapeHomeworkFromPage exC6dom "2025-11-16T10:00:05.000Z"
    ∧ (scrapeHomeworkFromPage exC6dom "2025-11-16T10:00:00.000Z").length = 1 := by
  decide

/-- Claim C6 as amended: two extraction calls (homework or schedule) over the
same unchanged DOM snapshot return record sequences identical in every field
except `extractedAt`, which records each call's time (for the schedule
extractor the two calls must also observe the same clock year, which it uses
as a fallback when the week-range text lacks a year). -/
theorem c6_amended (dom : List DayCard) (wdom : WpDom) (y t1 t2 : String) :
    (scrapeHomeworkFromPage dom t1).map eraseHw
      = (scrapeHomeworkFromPage dom t2).map eraseHw
    ∧ (scrapeWeeklyPlanFromPage wdom y t1).map eraseWp
      = (scrapeWeeklyPlanFromPage wdom y t2).map eraseWp := by
  constructor
  · simp only [scrapeHomeworkFromPage]
    exact flatMap_map_congr _ _ _ _ fun p =>
      filterMap_map_congr _ _ _ _ fun q =>
        extractRow_erase t1 t2 p.1 q.1 (cardDate (cardTitle p.1 p.2)) (cardTitle p.1 p.2) q.2
  · simp only [scrapeWeeklyPlanFromPage]
    exact filterMap_map_congr _ _ _ _ fun w =>
      extractEvent_erase t1 t2 _ w

/-- Counterexample to C2 as stated: a login attempt that completes with *no*
session artifact present still returns a session (an `ok`, not an error) —
no `AuthenticationError` is raised and no artifact check is performed. -/
theorem c2_counterexample :
    exC2env.artifacts = [] ∧ loginAndGetSession exC2env = .ok { artifacts := [] } :=
  ⟨rfl, rfl⟩

/-- Claim C2 as amended: after submitting the login form the flow only waits
a fixed delay; it checks for no session artifact and defines no
`AuthenticationError`. Whenever the mechanical steps succeed (page loads,
username field appears, password entry and submit click go through), the
session is returned unconditionally — whatever artifacts are or are not
present. -/
theorem c2_amended (env : LoginEnv) (h1 : env.pageLoads = true)
    (h2 : env.usernameFieldAppears = true) (h3 : env.passwordEntryOk = true)
    (h4 : env.submitClickOk = true) :
    submitLoginForm env = .ok ()
    ∧ loginAndGetSession env = .ok { artifacts := env.artifacts } := by
  obtain ⟨pl, uf, pe, sc, arts⟩ := env
  simp only at h1 h2 h3 h4
  subst h1
  subst h2
  subst h3
  subst h4
  exact ⟨rfl, rfl⟩

/-- Witness for the amended C2 at the artifact-free environment. -/
theorem c2_amended_witness :
    submitLoginForm exC2env = .ok ()
    ∧ loginAndGetSession exC2env = .ok { artifacts := [] } :=
  c2_amended exC2env rfl rfl rfl rfl

/-- Counterexample to C3 as stated: a navigation that arrives on a page
failing the content probe raises nothing — `navigateToWeeklyPlanPage`
completes successfully and returns `true`. -/
theorem c3_counterexample :
    validateWeeklyPlanPage exC3page = false
    ∧ navigateToWeeklyPlanPage exC3page = .ok true :=
  ⟨rfl, rfl⟩

/-- Claim C3 as amended: `navigateToWeeklyPlanPage` raises only when the page
fails to load or the URL shows a redirect to `/account/login`; when the
arrived page merely fails the `Weekly_Plan` URL-pattern or content-probe
validation it logs a warning and still completes successfully returning
`true`; and `navigateToHomeworkPage` never raises on missing navigation
targets (it warns and completes). -/
theorem c3_amended (p : WpNavPage) (q : HwNavPage)
    (hresp : p.responseOk = true)
    (hurl : strContains p.url "/account/login" = false) :
    navigateToWeeklyPlanPage p = .ok true
    ∧ (validateWeeklyPlanPage p = false → navigateToWeeklyPlanPage p = .ok true)
    ∧ isOkB (navigateToHomeworkPage q) = true := by
  have hnav : navigateToWeeklyPlanPage p = .ok true := by
    simp [navigateToWeeklyPlanPage, hresp, hurl]
  refine ⟨hnav, fun _ => hnav, ?_⟩
  unfold navigateToHomeworkPage
  split_ifs <;> rfl

/-- Witness for the amended C3 at the probe-failing page and a page with both
navigation buttons missing. -/
theorem c3_amended_witness :
    navigateToWeeklyPlanPage exC3page = .ok true
    ∧ (validateWeeklyPlanPage exC3page = false →
        navigateToWeeklyPlanPage exC3page = .ok true)
    ∧ isOkB (navigateToHomeworkPage { studentCardBtn := false, homeworkBtn := false })
        = true :=
  c3_amended exC3page { studentCardBtn := false, homeworkBtn := false } rfl (by decide)

end HomeworkAgent
